import Mathlib

/-!
Verification development for the `lucrecia-maya-server` auth routes.

The definitions below are a shallow embedding of `src/routes/auth.routes.js`
(the login handler with its lockout logic and the signup password rule) and of
`src/models/User.model.js` (the `isLocked` schema method).  Timestamps are
natural numbers of milliseconds, as returned by `Date.now()`; `lockUntil` is
`Option Nat` (the schema default is `null`).  The bcrypt comparison oracle and
the store contents are parameters of the handler, so theorems quantify over
them.
-/

/-- Embeds the persisted `User` document of `src/models/User.model.js`:
`email`, `password` (the stored bcrypt hash), `name` are required strings,
`failedLoginAttempts` defaults to 0 and `lockUntil` to null.  `_id` is the
system-generated identifier mongoose adds to every document. -/
structure Account where
  _id : String
  email : String
  password : String
  name : String
  failedLoginAttempts : Nat
  lockUntil : Option Nat
deriving DecidableEq, Repr

/-- Embeds `userSchema.methods.isLocked` of `src/models/User.model.js`:
`!!(this.lockUntil && this.lockUntil > Date.now())`.  `lockUntil` is either
null or a `Date` object, and a `Date` object is always truthy, so the
conjunction holds exactly when `lockUntil` is non-null and greater than `now`.
The function reads the account and the clock and mutates nothing. -/
def isLocked (a : Account) (now : Nat) : Bool :=
  match a.lockUntil with
  | none => false
  | some t => decide (t > now)

/-- Constant `MAX_LOGIN_ATTEMPTS = 10` of `src/routes/auth.routes.js`. -/
def MAX_LOGIN_ATTEMPTS : Nat := 10

/-- Constant `LOCK_TIME = 5 * 60 * 1000` of `src/routes/auth.routes.js`. -/
def LOCK_TIME : Nat := 5 * 60 * 1000

/-- Embeds the stale-lock reset of the login handler
(`src/routes/auth.routes.js`):
`if (user.lockUntil !== null && Date.now() > user.lockUntil) ...` resets
`failedLoginAttempts` to 0 and `lockUntil` to null; the comparison is a strict
`>`. -/
def staleLockReset (now : Nat) (a : Account) : Account :=
  match a.lockUntil with
  | some t =>
    if now > t then { a with failedLoginAttempts := 0, lockUntil := none }
    else a
  | none => a

/-- Payload `{ _id, email, name }` destructured from the user document and
signed by `jwt.sign` in the success branch of the login handler. -/
structure TokenPayload where
  _id : String
  email : String
  name : String
deriving DecidableEq, Repr

/-- A signed token as produced by
`jwt.sign(payload, process.env.TOKEN_SECRET, { algorithm: "HS256", expiresIn: "6h" })`;
the signature itself is abstracted, the payload and the fixed options are
kept. -/
structure AuthToken where
  payload : TokenPayload
  algorithm : String
  expiresIn : String
deriving DecidableEq, Repr

/-- Embeds the `jwt.sign` call of the login success branch. -/
def jwtSign (p : TokenPayload) : AuthToken :=
  { payload := p, algorithm := "HS256", expiresIn := "6h" }

/-- A JSON response body sent by the handler: either `{ message: ... }` or
`{ authToken: ... }`. -/
inductive Body where
  | msg (m : String)
  | token (t : AuthToken)
deriving DecidableEq, Repr

/-- One `res.status(s).json(b)` call. -/
structure Resp where
  status : Nat
  body : Body
deriving DecidableEq, Repr

/-- The login request body `{ email, password }`.  A field the client omitted
is `none` (JavaScript `undefined`); `some ""` is the empty string. -/
structure LoginReq where
  email : Option String
  password : Option String
deriving DecidableEq, Repr

/-- Embeds `User.findOne({ email })` for the login handler: the first stored
account whose `email` equals the filter value.  The schema marks `email`
required on every document, so a filter whose email value is absent matches no
stored account. -/
def findOne (db : List Account) (email : Option String) : Option Account :=
  match email with
  | none => none
  | some e => db.find? (fun a => a.email == e)

/-- Everything observable about one run of the login handler:
* `sends` — the `res.status(..).json(..)` calls in program order.  After the
  first one the response is committed; a later call throws
  `ERR_HTTP_HEADERS_SENT` and cannot change what the client received.
* `user` — the in-memory state of the found user document when the handler
  finishes (`none` when lookup found nothing or validation failed).
* `saved` — whether `user.save()` was invoked.
* `persisted` — the state the store holds afterwards when the save was invoked
  and the store write succeeded (`user.save()` is not awaited, so its outcome
  feeds back nowhere else).
* `compared` — the `(plaintext, hash)` pair passed to `bcrypt.compareSync`,
  when it was invoked.
* `compareThrew` — `bcrypt.compareSync(undefined, hash)` throws, which the
  promise chain forwards to `next(err)`. -/
structure LoginOutcome where
  sends : List Resp
  user : Option Account
  saved : Bool
  persisted : Option Account
  compared : Option (String × String)
  compareThrew : Bool
deriving DecidableEq, Repr

/-- Embeds `router.post("/login")` of `src/routes/auth.routes.js`, line by
line.  `cmp` is the `bcrypt.compareSync` oracle, `db` the users collection,
`now` the value of `Date.now()` during the request, `saveOk` whether the
(unawaited) store write succeeds. -/
def login (cmp : String → String → Bool) (db : List Account)
    (req : LoginReq) (now : Nat) (saveOk : Bool) : LoginOutcome :=
  if req.email == some "" || req.password == some "" then
    { sends := [⟨400, .msg "Provide email and password."⟩], user := none,
      saved := false, persisted := none, compared := none, compareThrew := false }
  else
    match findOne db req.email with
    | none =>
      { sends := [⟨401, .msg "User not found."⟩], user := none,
        saved := false, persisted := none, compared := none, compareThrew := false }
    | some user =>
      if isLocked user now then
        { sends := [⟨423, .msg "Account locked. Please try again later."⟩],
          user := some user, saved := false, persisted := none,
          compared := none, compareThrew := false }
      else
        let user := staleLockReset now user
        match req.password with
        | none =>
          { sends := [], user := some user, saved := false, persisted := none,
            compared := none, compareThrew := true }
        | some pw =>
          if cmp pw user.password then
            let payload : TokenPayload := ⟨user._id, user.email, user.name⟩
            let user := { user with failedLoginAttempts := 0, lockUntil := none }
            { sends := [⟨200, .token (jwtSign payload)⟩], user := some user,
              saved := true, persisted := if saveOk then some user else none,
              compared := some (pw, user.password), compareThrew := false }
          else
            let firstSend : Resp :=
              ⟨401, .msg "Please try again, the email and password did not matched"⟩
            let user := { user with failedLoginAttempts := user.failedLoginAttempts + 1 }
            let user :=
              if user.failedLoginAttempts ≥ MAX_LOGIN_ATTEMPTS then
                { user with lockUntil := some (now + LOCK_TIME) }
              else user
            let secondSend : Resp :=
              if isLocked user now then
                ⟨423, .msg "Account locked due to too many failed login attempts. Please try again later."⟩
              else
                ⟨401, .msg "Invalid username or password"⟩
            { sends := [firstSend, secondSend], user := some user,
              saved := true, persisted := if saveOk then some user else none,
              compared := some (pw, user.password), compareThrew := false }

/-- Modelled from the spec: the boundary error handler (not under `src/`) that
`next(err)` reaches "maps unknown errors to 500". -/
def boundaryResp : Resp := ⟨500, .msg "Internal server error"⟩

/-- The single response the client actually receives: the first committed
send; when nothing was sent and an error reached `next(err)`, the boundary's
500. -/
def clientResponse (o : LoginOutcome) : Option Resp :=
  match o.sends.head? with
  | some r => some r
  | none => if o.compareThrew then some boundaryResp else none

/-- The symbol class `[@$!%*?&]` of the signup `passwordRegex`. -/
def isPasswordSymbol (c : Char) : Bool :=
  c == '@' || c == '$' || c == '!' || c == '%' || c == '*' || c == '?' || c == '&'

/-- The character class `[A-Za-z\d@$!%*?&]` that the body of the signup
`passwordRegex` allows. -/
def passwordAlphabet (c : Char) : Bool :=
  c.isLower || c.isUpper || c.isDigit || isPasswordSymbol c

/-- Embeds the signup `passwordRegex` of `src/routes/auth.routes.js`:
`/^(?=.*[a-z])(?=.*[A-Z])(?=.*\d)(?=.*[@$!%*?&])[A-Za-z\d@$!%*?&]{8,}$/`.
Each lookahead demands one character of its class somewhere in the string, and
the anchored body demands at least 8 characters all drawn from
`[A-Za-z\d@$!%*?&]` (a class that excludes newlines, so the `.` of the
lookaheads never hits its no-newline limit on a string the body accepts). -/
def passwordRegexTest (s : String) : Bool :=
  let cs := s.toList
  cs.any Char.isLower && cs.any Char.isUpper && cs.any Char.isDigit
    && cs.any isPasswordSymbol && cs.all passwordAlphabet && cs.length ≥ 8

/-- Follows the spec's words only (for comparison with `passwordRegexTest`):
"password must be ≥8 characters containing at least one lowercase, one
uppercase, one digit, one symbol from a defined set". -/
def specAcceptsPassword (s : String) : Bool :=
  let cs := s.toList
  cs.length ≥ 8 && cs.any Char.isLower && cs.any Char.isUpper
    && cs.any Char.isDigit && cs.any isPasswordSymbol

/-- One login attempt against a single-account store, with a successful store
write: the scenario of the spec's 10-failed-logins property. -/
def attemptOutcome (cmp : String → String → Bool) (a : Account) (pw : String)
    (now : Nat) : LoginOutcome :=
  login cmp [a] ⟨some a.email, some pw⟩ now true

/-- The account the store holds after one attempt (unchanged when the handler
never saved). -/
def stepAccount (cmp : String → String → Bool) (pw : String) (now : Nat)
    (a : Account) : Account :=
  (attemptOutcome cmp a pw now).persisted.getD a

/-- The account the store holds after `n` consecutive attempts with the same
password at the same clock reading. -/
def iterAccount (cmp : String → String → Bool) (pw : String) (now : Nat) :
    Nat → Account → Account
  | 0, a => a
  | n + 1, a => iterAccount cmp pw now n (stepAccount cmp pw now a)

/-! ### Helper lemmas -/

theorem staleLockReset_none (now : Nat) (a : Account) (h : a.lockUntil = none) :
    staleLockReset now a = a := by
  unfold staleLockReset
  rw [h]

theorem staleLockReset_expired (now t : Nat) (a : Account)
    (h : a.lockUntil = some t) (ht : now > t) :
    staleLockReset now a = { a with failedLoginAttempts := 0, lockUntil := none } := by
  unfold staleLockReset
  rw [h]
  simp [ht]

theorem staleLockReset_live (now t : Nat) (a : Account)
    (h : a.lockUntil = some t) (ht : ¬ now > t) :
    staleLockReset now a = a := by
  unfold staleLockReset
  rw [h]
  simp [ht]

theorem staleLockReset_password (now : Nat) (a : Account) :
    (staleLockReset now a).password = a.password := by
  unfold staleLockReset
  rcases a.lockUntil with _ | t
  · rfl
  · by_cases ht : now > t <;> simp [ht]

/-! ### Claims -/

/-- C6: `isLocked` returns true iff `lockUntil` is non-null and strictly
greater than the evaluation time; it is a pure function of the account
snapshot and the clock (it is a plain function here, with no state to
mutate). -/
theorem c6_isLocked_iff (a : Account) (now : Nat) :
    isLocked a now = true ↔ ∃ t, a.lockUntil = some t ∧ t > now := by
  unfold isLocked
  rcases h : a.lockUntil with _ | t <;> simp [h]

/-- C3: when the lockout check reports locked, the handler answers 423 only,
never reaches the password comparison, leaves the user document exactly as it
was found, and never calls `save` — for every comparison oracle and every
submitted password. -/
theorem c3_locked_frame (cmp : String → String → Bool) (db : List Account)
    (req : LoginReq) (now : Nat) (saveOk : Bool) (a : Account)
    (h1 : req.email ≠ some "") (h2 : req.password ≠ some "")
    (h3 : findOne db req.email = some a) (h4 : isLocked a now = true) :
    login cmp db req now saveOk =
      { sends := [⟨423, .msg "Account locked. Please try again later."⟩],
        user := some a, saved := false, persisted := none,
        compared := none, compareThrew := false } := by
  unfold login
  rw [h3]
  simp [h1, h2, h4]

theorem c3_locked_frame_witness :
    (⟨some "user@x.com", some "hunter2"⟩ : LoginReq).email ≠ some "" ∧
    (⟨some "user@x.com", some "hunter2"⟩ : LoginReq).password ≠ some "" ∧
    findOne [⟨"id1", "user@x.com", "hash", "L", 3, some 9000⟩] (some "user@x.com") =
      some ⟨"id1", "user@x.com", "hash", "L", 3, some 9000⟩ ∧
    isLocked ⟨"id1", "user@x.com", "hash", "L", 3, some 9000⟩ 1000 = true ∧
    login (fun p h => p == h) [⟨"id1", "user@x.com", "hash", "L", 3, some 9000⟩]
        ⟨some "user@x.com", some "hunter2"⟩ 1000 true =
      { sends := [⟨423, .msg "Account locked. Please try again later."⟩],
        user := some ⟨"id1", "user@x.com", "hash", "L", 3, some 9000⟩,
        saved := false, persisted := none,
        compared := none, compareThrew := false } :=
  ⟨by decide, by decide, by decide, by decide,
   c3_locked_frame (fun p h => p == h) _ _ 1000 true _
     (by decide) (by decide) (by decide) (by decide)⟩

/-- C5: a successful login (password matches, account not locked) answers 200
with the signed token for `{_id, email, name}`, leaves the document with
`failedLoginAttempts = 0` and `lockUntil = null`, and hands exactly that state
to `save` — whatever the prior counter and lock were. -/
theorem c5_success_reset (cmp : String → String → Bool) (db : List Account)
    (req : LoginReq) (now : Nat) (saveOk : Bool) (a : Account) (pw : String)
    (h1 : req.email ≠ some "") (h2 : req.password = some pw) (h2' : pw ≠ "")
    (h3 : findOne db req.email = some a) (h4 : isLocked a now = false)
    (h5 : cmp pw a.password = true) :
    login cmp db req now saveOk =
      { sends := [⟨200, .token (jwtSign ⟨a._id, a.email, a.name⟩)⟩],
        user := some { a with failedLoginAttempts := 0, lockUntil := none },
        saved := true,
        persisted := if saveOk then
            some { a with failedLoginAttempts := 0, lockUntil := none }
          else none,
        compared := some (pw, a.password), compareThrew := false } := by
  unfold login
  rw [h3]
  have hpw : (staleLockReset now a).password = a.password := staleLockReset_password now a
  have hid : (staleLockReset now a)._id = a._id := by
    unfold staleLockReset
    rcases a.lockUntil with _ | t
    · rfl
    · by_cases ht : now > t <;> simp [ht]
  have hem : (staleLockReset now a).email = a.email := by
    unfold staleLockReset
    rcases a.lockUntil with _ | t
    · rfl
    · by_cases ht : now > t <;> simp [ht]
  have hnm : (staleLockReset now a).name = a.name := by
    unfold staleLockReset
    rcases a.lockUntil with _ | t
    · rfl
    · by_cases ht : now > t <;> simp [ht]
  have hclear : ({ staleLockReset now a with
      failedLoginAttempts := 0, lockUntil := none } : Account) =
      { a with failedLoginAttempts := 0, lockUntil := none } := by
    unfold staleLockReset
    rcases a.lockUntil with _ | t
    · rfl
    · by_cases ht : now > t <;> simp [ht]
  simp only [h1, h2, h4, hpw, h5, hclear, hid, hem, hnm, Bool.false_eq_true,
    if_false, ne_eq, beq_iff_eq, Option.some.injEq]
  simp [h1, h2']

theorem c5_success_reset_witness :
    (⟨some "user@x.com", some "Valid1!x"⟩ : LoginReq).email ≠ some "" ∧
    login (fun p h => p == h) [⟨"id1", "user@x.com", "Valid1!x", "L", 7, some 50⟩]
        ⟨some "user@x.com", some "Valid1!x"⟩ 1000 true =
      { sends := [⟨200, .token (jwtSign ⟨"id1", "user@x.com", "L"⟩)⟩],
        user := some ⟨"id1", "user@x.com", "Valid1!x", "L", 0, none⟩,
        saved := true,
        persisted := some ⟨"id1", "user@x.com", "Valid1!x", "L", 0, none⟩,
        compared := some ("Valid1!x", "Valid1!x"), compareThrew := false } := by
  refine ⟨by decide, ?_⟩
  have h := c5_success_reset (fun p h => p == h)
    [⟨"id1", "user@x.com", "Valid1!x", "L", 7, some 50⟩]
    ⟨some "user@x.com", some "Valid1!x"⟩ 1000 true
    ⟨"id1", "user@x.com", "Valid1!x", "L", 7, some 50⟩ "Valid1!x"
    (by decide) (by decide) (by decide) (by decide) (by decide) (by decide)
  simpa using h

/-- C7 counterexample: with one stored account, an unknown-email request and a
wrong-password request both answer 401, but the bodies are
`"User not found."` and
`"Please try again, the email and password did not matched"` — the caller can
read off which check failed, so the two outcomes are distinguishable. -/
theorem c7_distinguishable_counterexample :
    clientResponse (login (fun p h => p == h)
        [⟨"id1", "user@x.com", "correcthash", "L", 0, none⟩]
        ⟨some "nobody@x.com", some "whatever"⟩ 1000 true) =
      some ⟨401, .msg "User not found."⟩ ∧
    clientResponse (login (fun p h => p == h)
        [⟨"id1", "user@x.com", "correcthash", "L", 0, none⟩]
        ⟨some "user@x.com", some "whatever"⟩ 1000 true) =
      some ⟨401, .msg "Please try again, the email and password did not matched"⟩ ∧
    (⟨401, .msg "User not found."⟩ : Resp) ≠
      ⟨401, .msg "Please try again, the email and password did not matched"⟩ := by
  refine ⟨by decide, by decide, by decide⟩

/-- C7 amended: the status codes agree (both 401), but the response bodies
differ between the unknown-email path and the wrong-password path: the former
answers `"User not found."`, the latter
`"Please try again, the email and password did not matched"`, so the caller
can distinguish which check failed. -/
theorem c7_messages_amended (cmp : String → String → Bool) (db : List Account)
    (req₁ req₂ : LoginReq) (now₁ now₂ : Nat) (saveOk₁ saveOk₂ : Bool)
    (a : Account) (pw : String)
    (h1 : req₁.email ≠ some "") (h2 : req₁.password ≠ some "")
    (h3 : findOne db req₁.email = none)
    (g1 : req₂.email ≠ some "") (g2 : req₂.password = some pw) (g2' : pw ≠ "")
    (g3 : findOne db req₂.email = some a) (g4 : isLocked a now₂ = false)
    (g5 : cmp pw (staleLockReset now₂ a).password = false) :
    clientResponse (login cmp db req₁ now₁ saveOk₁) =
      some ⟨401, .msg "User not found."⟩ ∧
    clientResponse (login cmp db req₂ now₂ saveOk₂) =
      some ⟨401, .msg "Please try again, the email and password did not matched"⟩ ∧
    clientResponse (login cmp db req₁ now₁ saveOk₁) ≠
      clientResponse (login cmp db req₂ now₂ saveOk₂) := by
  have e₁ : clientResponse (login cmp db req₁ now₁ saveOk₁) =
      some ⟨401, .msg "User not found."⟩ := by
    unfold login
    rw [h3]
    simp [clientResponse, h1, h2]
  have e₂ : clientResponse (login cmp db req₂ now₂ saveOk₂) =
      some ⟨401, .msg "Please try again, the email and password did not matched"⟩ := by
    unfold login
    rw [g3]
    simp [clientResponse, g1, g2, g2', g4, g5]
  refine ⟨e₁, e₂, ?_⟩
  rw [e₁, e₂]
  simp

theorem c7_messages_amended_witness :
    findOne [⟨"id1", "user@x.com", "correcthash", "L", 0, none⟩]
        (some "nobody@x.com") = none ∧
    clientResponse (login (fun p h => p == h)
        [⟨"id1", "user@x.com", "correcthash", "L", 0, none⟩]
        ⟨some "nobody@x.com", some "whatever"⟩ 1000 true) ≠
      clientResponse (login (fun p h => p == h)
        [⟨"id1", "user@x.com", "correcthash", "L", 0, none⟩]
        ⟨some "user@x.com", some "whatever"⟩ 1000 true) :=
  ⟨by decide,
   (c7_messages_amended (fun p h => p == h)
      [⟨"id1", "user@x.com", "correcthash", "L", 0, none⟩]
      ⟨some "nobody@x.com", some "whatever"⟩ ⟨some "user@x.com", some "whatever"⟩
      1000 1000 true true ⟨"id1", "user@x.com", "correcthash", "L", 0, none⟩
      "whatever" (by decide) (by decide) (by decide) (by decide) (by decide)
      (by decide) (by decide) (by decide) (by decide)).2.2⟩

/-- C8 counterexample: `user.save()` is invoked without awaiting its promise,
so a failed store write changes nothing the caller sees.  Concretely: correct
password, the save is invoked, the write fails (`saveOk = false`, so nothing
is persisted) — yet the caller receives 200 with a token, not a 500 server
error. -/
theorem c8_save_failure_counterexample :
    (login (fun p h => p == h)
        [⟨"id1", "user@x.com", "correcthash", "L", 4, none⟩]
        ⟨some "user@x.com", some "correcthash"⟩ 1000 false).saved = true ∧
    (login (fun p h => p == h)
        [⟨"id1", "user@x.com", "correcthash", "L", 4, none⟩]
        ⟨some "user@x.com", some "correcthash"⟩ 1000 false).persisted = none ∧
    clientResponse (login (fun p h => p == h)
        [⟨"id1", "user@x.com", "correcthash", "L", 4, none⟩]
        ⟨some "user@x.com", some "correcthash"⟩ 1000 false) =
      some ⟨200, .token (jwtSign ⟨"id1", "user@x.com", "L"⟩)⟩ ∧
    some (⟨200, .token (jwtSign ⟨"id1", "user@x.com", "L"⟩)⟩ : Resp) ≠
      some boundaryResp := by
  refine ⟨by decide, by decide, by decide, by decide⟩

/-- C8 amended: the handler never observes the outcome of `user.save()` (the
promise is not awaited), so every caller-visible part of the run — the sends,
the final in-memory document, whether a compare ran or threw, and the client
response — is identical whether the store write succeeds or fails; a save
failure never reaches the error boundary and is never turned into a 500.
Only failures of the lookup chain itself propagate to `next(err)`. -/
theorem c8_save_independent_amended (cmp : String → String → Bool)
    (db : List Account) (req : LoginReq) (now : Nat) :
    (login cmp db req now false).sends = (login cmp db req now true).sends ∧
    (login cmp db req now false).user = (login cmp db req now true).user ∧
    (login cmp db req now false).saved = (login cmp db req now true).saved ∧
    (login cmp db req now false).compared = (login cmp db req now true).compared ∧
    (login cmp db req now false).compareThrew =
      (login cmp db req now true).compareThrew ∧
    clientResponse (login cmp db req now false) =
      clientResponse (login cmp db req now true) := by
  unfold login
  split
  · exact ⟨rfl, rfl, rfl, rfl, rfl, rfl⟩
  · rcases h : findOne db req.email with _ | a
    · exact ⟨rfl, rfl, rfl, rfl, rfl, rfl⟩
    · by_cases hl : isLocked a now
      · simp [hl]
      · rcases hp : req.password with _ | pw
        · simp [hl, hp]
        · by_cases hc : cmp pw (staleLockReset now a).password
          · simp [hl, hp, hc, clientResponse]
          · simp [hl, hp, hc, clientResponse]

/-- C9 counterexample: the regex body `[A-Za-z\d@$!%*?&]{8,}` also restricts
WHICH characters may appear.  `"Valid1!x#"` is 9 characters long and contains
a lowercase letter, an uppercase letter, a digit and the symbol `!` from the
set — the spec's stated conditions all hold — yet signup rejects it, because
`#` is outside the allowed class. -/
theorem c9_alphabet_counterexample :
    specAcceptsPassword "Valid1!x#" = true ∧
    passwordRegexTest "Valid1!x#" = false ∧
    passwordRegexTest "Valid1!x#" ≠ specAcceptsPassword "Valid1!x#" := by
  refine ⟨by decide, by decide, by decide⟩

/-- C9 amended: signup accepts a password iff it is at least 8 characters,
contains at least one lowercase letter, one uppercase letter, one digit and
one symbol from `@$!%*?&`, AND every character is drawn from
`[A-Za-z0-9@$!%*?&]`.  The two quoted examples behave as claimed:
`"short1!"` is rejected and `"Valid1!x"` accepted. -/
theorem c9_password_rule_amended :
    (∀ s : String,
      passwordRegexTest s =
        (specAcceptsPassword s && s.toList.all passwordAlphabet)) ∧
    passwordRegexTest "short1!" = false ∧
    passwordRegexTest "Valid1!x" = true := by
  refine ⟨?_, by decide, by decide⟩
  intro s
  unfold passwordRegexTest specAcceptsPassword
  simp only [Bool.and_comm, Bool.and_assoc, Bool.and_left_comm]

/-- C10: a request that omits a field entirely (`undefined`) slips past the
`=== ""` check.  With the email absent, the lookup filter matches no stored
account (every stored account has a required string email), so the request
ends on the 401 "User not found." path, not on a 400 validation error; with
the password absent (and a non-empty email) no path of the handler produces a
400 either. -/
theorem c10_absent_fields (cmp : String → String → Bool) (db : List Account)
    (pw : Option String) (e : String) (now : Nat) (saveOk : Bool)
    (hpw : pw ≠ some "") (he : e ≠ "") :
    login cmp db ⟨none, pw⟩ now saveOk =
      { sends := [⟨401, .msg "User not found."⟩], user := none,
        saved := false, persisted := none, compared := none,
        compareThrew := false } ∧
    (∀ r, clientResponse (login cmp db ⟨some e, none⟩ now saveOk) = some r →
      r.status ≠ 400) := by
  constructor
  · unfold login
    simp [findOne, hpw]
  · intro r hr
    unfold login at hr
    rcases h : findOne db (some e) with _ | a
    · rw [h] at hr
      simp [clientResponse, he] at hr
      subst hr
      decide
    · rw [h] at hr
      by_cases hl : isLocked a now
      · simp [clientResponse, he, hl] at hr
        subst hr
        decide
      · simp [clientResponse, boundaryResp, he, hl] at hr
        subst hr
        decide

theorem c10_absent_fields_witness :
    some "pw1" ≠ some "" ∧ "user@x.com" ≠ "" ∧
    login (fun p h => p == h) [⟨"id1", "user@x.com", "correcthash", "L", 0, none⟩]
        ⟨none, some "pw1"⟩ 1000 true =
      { sends := [⟨401, .msg "User not found."⟩], user := none,
        saved := false, persisted := none, compared := none,
        compareThrew := false } :=
  ⟨by decide, by decide,
   (c10_absent_fields (fun p h => p == h)
      [⟨"id1", "user@x.com", "correcthash", "L", 0, none⟩]
      (some "pw1") "user@x.com" 1000 true (by decide) (by decide)).1⟩

/-- C2 counterexample: the reset guard is the strict `Date.now() > lockUntil`,
so when `lockUntil` equals `now` exactly nothing is reset: with
`failedLoginAttempts = 5` and `lockUntil = some 1000` at `now = 1000`, the
reset step leaves the account unchanged and a wrong password then brings the
counter to 6 with the lock timestamp still in place — had the claimed reset
fired before evaluation, the counter would have ended at 1 and the lock at
null. -/
theorem c2_equal_now_counterexample :
    staleLockReset 1000 ⟨"id1", "user@x.com", "correcthash", "L", 5, some 1000⟩ =
      ⟨"id1", "user@x.com", "correcthash", "L", 5, some 1000⟩ ∧
    (login (fun p h => p == h)
        [⟨"id1", "user@x.com", "correcthash", "L", 5, some 1000⟩]
        ⟨some "user@x.com", some "wrong"⟩ 1000 true).user =
      some ⟨"id1", "user@x.com", "correcthash", "L", 6, some 1000⟩ ∧
    (6 : Nat) ≠ 1 ∧ (some 1000 : Option Nat) ≠ none := by
  refine ⟨by decide, by decide, by decide, by decide⟩

/-- C2 amended: the pre-evaluation reset fires exactly when `lockUntil` is set
and STRICTLY earlier than `now` (`now > lockUntil`); when `lockUntil` equals
`now` the reset does not fire — the account is not locked either, so the
password is evaluated against the stale counter, which a failure then simply
increments. -/
theorem c2_stale_reset_amended :
    (∀ (now : Nat) (a : Account) (t : Nat), a.lockUntil = some t →
      staleLockReset now a =
        if t < now then { a with failedLoginAttempts := 0, lockUntil := none }
        else a) ∧
    (∀ (cmp : String → String → Bool) (db : List Account) (req : LoginReq)
        (now : Nat) (saveOk : Bool) (a : Account) (pw : String),
      req.email ≠ some "" → req.password = some pw → pw ≠ "" →
      findOne db req.email = some a → a.lockUntil = some now →
      cmp pw a.password = false →
      a.failedLoginAttempts + 1 < MAX_LOGIN_ATTEMPTS →
      (login cmp db req now saveOk).user =
        some { a with failedLoginAttempts := a.failedLoginAttempts + 1 }) := by
  constructor
  · intro now a t h
    unfold staleLockReset
    rw [h]
  · intro cmp db req now saveOk a pw h1 h2 h2' h3 hl h5 hk
    have hnl : isLocked a now = false := by
      unfold isLocked
      rw [hl]
      simp
    have hsr : staleLockReset now a = a := staleLockReset_live now now a hl (by omega)
    unfold login
    rw [h3]
    simp [h1, h2, h2', hnl, hsr, h5, Nat.not_le_of_lt hk]

theorem c2_stale_reset_amended_witness :
    (⟨"id2", "u@x.com", "h2", "M", 5, some 40⟩ : Account).lockUntil = some 40 ∧
    staleLockReset 100 ⟨"id2", "u@x.com", "h2", "M", 5, some 40⟩ =
      ⟨"id2", "u@x.com", "h2", "M", 0, none⟩ ∧
    (login (fun p h => p == h)
        [⟨"id2", "u@x.com", "h2", "M", 5, some 1000⟩]
        ⟨some "u@x.com", some "wrong"⟩ 1000 true).user =
      some ⟨"id2", "u@x.com", "h2", "M", 6, some 1000⟩ := by
  refine ⟨rfl, ?_, ?_⟩
  · have h := c2_stale_reset_amended.1 100 ⟨"id2", "u@x.com", "h2", "M", 5, some 40⟩ 40 rfl
    simpa using h
  · have h := c2_stale_reset_amended.2 (fun p h => p == h)
      [⟨"id2", "u@x.com", "h2", "M", 5, some 1000⟩]
      ⟨some "u@x.com", some "wrong"⟩ 1000 true
      ⟨"id2", "u@x.com", "h2", "M", 5, some 1000⟩ "wrong"
      (by decide) (by decide) (by decide) (by decide) (by decide) (by decide)
      (by decide)
    simpa using h

/-- C4 counterexample: an attempt on an account with an EXPIRED lock first
self-heals (counter to 0, lock to null) and only then increments, so with
`failedLoginAttempts = 7`, `lockUntil = some 5`, `now = 10` and a wrong
password the document ends at `failedLoginAttempts = 1` — not the claimed
`7 + 1 = 8` — and `lockUntil` changed to null even though the new count is
below 10. -/
theorem c4_failure_counterexample :
    (login (fun p h => p == h)
        [⟨"id1", "user@x.com", "correcthash", "L", 7, some 5⟩]
        ⟨some "user@x.com", some "wrong"⟩ 10 true).user =
      some ⟨"id1", "user@x.com", "correcthash", "L", 1, none⟩ ∧
    (1 : Nat) ≠ 7 + 1 ∧ (none : Option Nat) ≠ some 5 := by
  refine ⟨by decide, by decide, by decide⟩

/-- C4 amended: on a wrong password against an unlocked account, the counter
the failure branch increments is the POST-self-heal one: the final count is
the post-heal count plus exactly 1; if that reaches 10 the lock is set to
`now + 300000`, otherwise `lockUntil` keeps its post-heal value; `save` is
invoked either way (persisting when the write succeeds).  When the account
carried no lock at all the self-heal is the identity, so the count is the
prior count plus 1, as originally claimed. -/
theorem c4_failure_update_amended (cmp : String → String → Bool)
    (db : List Account) (req : LoginReq) (now : Nat) (saveOk : Bool)
    (a : Account) (pw : String)
    (h1 : req.email ≠ some "") (h2 : req.password = some pw) (h2' : pw ≠ "")
    (h3 : findOne db req.email = some a) (h4 : isLocked a now = false)
    (h5 : cmp pw a.password = false) :
    ∃ u, (login cmp db req now saveOk).user = some u ∧
      (login cmp db req now saveOk).saved = true ∧
      (login cmp db req now saveOk).persisted =
        (if saveOk then some u else none) ∧
      u.failedLoginAttempts = (staleLockReset now a).failedLoginAttempts + 1 ∧
      (u.failedLoginAttempts ≥ MAX_LOGIN_ATTEMPTS →
        u.lockUntil = some (now + LOCK_TIME)) ∧
      (u.failedLoginAttempts < MAX_LOGIN_ATTEMPTS →
        u.lockUntil = (staleLockReset now a).lockUntil) ∧
      (a.lockUntil = none →
        u.failedLoginAttempts = a.failedLoginAttempts + 1) := by
  have hpw : (staleLockReset now a).password = a.password :=
    staleLockReset_password now a
  by_cases hk : (staleLockReset now a).failedLoginAttempts + 1 ≥ MAX_LOGIN_ATTEMPTS
  · refine ⟨{ staleLockReset now a with
        failedLoginAttempts := (staleLockReset now a).failedLoginAttempts + 1,
        lockUntil := some (now + LOCK_TIME) }, ?_, ?_, ?_, ?_, ?_, ?_, ?_⟩
    · unfold login
      rw [h3]
      simp [h1, h2, h2', h4, hpw, h5, hk]
    · unfold login
      rw [h3]
      simp [h1, h2, h2', h4, hpw, h5, hk]
    · unfold login
      rw [h3]
      simp [h1, h2, h2', h4, hpw, h5, hk]
    · rfl
    · intro _
      rfl
    · intro hcon
      simp at hcon
      omega
    · intro hln
      have : staleLockReset now a = a := staleLockReset_none now a hln
      rw [this]
  · refine ⟨{ staleLockReset now a with
        failedLoginAttempts := (staleLockReset now a).failedLoginAttempts + 1 },
        ?_, ?_, ?_, ?_, ?_, ?_, ?_⟩
    · unfold login
      rw [h3]
      simp [h1, h2, h2', h4, hpw, h5, hk]
    · unfold login
      rw [h3]
      simp [h1, h2, h2', h4, hpw, h5, hk]
    · unfold login
      rw [h3]
      simp [h1, h2, h2', h4, hpw, h5, hk]
    · rfl
    · intro hcon
      simp at hcon
      omega
    · intro _
      rfl
    · intro hln
      have : staleLockReset now a = a := staleLockReset_none now a hln
      rw [this]

theorem c4_failure_update_amended_witness :
    findOne [⟨"id3", "v@x.com", "h3", "N", 3, none⟩] (some "v@x.com") =
      some ⟨"id3", "v@x.com", "h3", "N", 3, none⟩ ∧
    isLocked ⟨"id3", "v@x.com", "h3", "N", 3, none⟩ 1000 = false ∧
    (∃ u, (login (fun p h => p == h) [⟨"id3", "v@x.com", "h3", "N", 3, none⟩]
        ⟨some "v@x.com", some "wrong"⟩ 1000 true).user = some u ∧
      (login (fun p h => p == h) [⟨"id3", "v@x.com", "h3", "N", 3, none⟩]
        ⟨some "v@x.com", some "wrong"⟩ 1000 true).saved = true ∧
      (login (fun p h => p == h) [⟨"id3", "v@x.com", "h3", "N", 3, none⟩]
        ⟨some "v@x.com", some "wrong"⟩ 1000 true).persisted =
        (if true then some u else none) ∧
      u.failedLoginAttempts =
        (staleLockReset 1000 ⟨"id3", "v@x.com", "h3", "N", 3, none⟩).failedLoginAttempts + 1 ∧
      (u.failedLoginAttempts ≥ MAX_LOGIN_ATTEMPTS →
        u.lockUntil = some (1000 + LOCK_TIME)) ∧
      (u.failedLoginAttempts < MAX_LOGIN_ATTEMPTS →
        u.lockUntil =
          (staleLockReset 1000 ⟨"id3", "v@x.com", "h3", "N", 3, none⟩).lockUntil) ∧
      ((⟨"id3", "v@x.com", "h3", "N", 3, none⟩ : Account).lockUntil = none →
        u.failedLoginAttempts =
          (⟨"id3", "v@x.com", "h3", "N", 3, none⟩ : Account).failedLoginAttempts + 1)) :=
  ⟨by decide, by decide,
   c4_failure_update_amended (fun p h => p == h)
     [⟨"id3", "v@x.com", "h3", "N", 3, none⟩]
     ⟨some "v@x.com", some "wrong"⟩ 1000 true
     ⟨"id3", "v@x.com", "h3", "N", 3, none⟩ "wrong"
     (by decide) (by decide) (by decide) (by decide) (by decide) (by decide)⟩

theorem stepAccount_fail (cmp : String → String → Bool) (pw : String)
    (now : Nat) (a : Account) (he : a.email ≠ "") (hp : pw ≠ "")
    (hc : cmp pw a.password = false) (hl : a.lockUntil = none)
    (hk : a.failedLoginAttempts + 1 < MAX_LOGIN_ATTEMPTS) :
    stepAccount cmp pw now a =
      { a with failedLoginAttempts := a.failedLoginAttempts + 1 } := by
  have hfind : findOne [a] (some a.email) = some a := by
    simp [findOne, List.find?]
  have hnl : isLocked a now = false := by
    unfold isLocked
    rw [hl]
  have hsr : staleLockReset now a = a := staleLockReset_none now a hl
  unfold stepAccount attemptOutcome login
  rw [hfind]
  simp [he, hp, hnl, hsr, hc, Nat.not_le_of_lt hk]

theorem iterAccount_fail (cmp : String → String → Bool) (pw : String)
    (now : Nat) : ∀ (n : Nat) (a : Account), a.email ≠ "" → pw ≠ "" →
    cmp pw a.password = false → a.lockUntil = none →
    a.failedLoginAttempts + n < MAX_LOGIN_ATTEMPTS →
    iterAccount cmp pw now n a =
      { a with failedLoginAttempts := a.failedLoginAttempts + n } := by
  intro n
  induction n with
  | zero =>
    intro a _ _ _ _ _
    rfl
  | succ n ih =>
    intro a he hp hc hl hk
    have hstep : stepAccount cmp pw now a =
        { a with failedLoginAttempts := a.failedLoginAttempts + 1 } :=
      stepAccount_fail cmp pw now a he hp hc hl (by omega)
    have hiter := ih { a with failedLoginAttempts := a.failedLoginAttempts + 1 }
      he hp hc hl (by simp; omega)
    unfold iterAccount
    rw [hstep, hiter]
    have : a.failedLoginAttempts + 1 + n = a.failedLoginAttempts + (n + 1) := by
      omega
    simp [this]

/-- C1 amended: after 9 consecutive failed attempts from a clean account the
counter stands at 9 with no lock, so the 10th attempt is NOT rejected by the
lock check — its password IS passed to `bcrypt.compareSync` — and, after the
mismatch, the counter reaches 10 and `lockUntil` is set to `now + 300000` and
saved.  The handler first sends a 401 mismatch response and only then tries to
send 423; that second send cannot reach the client because the response is
already committed, so the client response to the 10th attempt is the 401.
The lock itself only turns requests away (with a clean 423) from the 11th
attempt on. -/
theorem c1_tenth_attempt_amended (cmp : String → String → Bool) (pw : String)
    (now : Nat) (a : Account)
    (he : a.email ≠ "") (hp : pw ≠ "") (hc : cmp pw a.password = false)
    (hf : a.failedLoginAttempts = 0) (hl : a.lockUntil = none) :
    attemptOutcome cmp (iterAccount cmp pw now 9 a) pw now =
      { sends :=
          [⟨401, .msg "Please try again, the email and password did not matched"⟩,
           ⟨423, .msg "Account locked due to too many failed login attempts. Please try again later."⟩],
        user := some { a with failedLoginAttempts := 10,
                              lockUntil := some (now + LOCK_TIME) },
        saved := true,
        persisted := some { a with failedLoginAttempts := 10,
                                   lockUntil := some (now + LOCK_TIME) },
        compared := some (pw, a.password), compareThrew := false } ∧
    clientResponse (attemptOutcome cmp (iterAccount cmp pw now 9 a) pw now) =
      some ⟨401, .msg "Please try again, the email and password did not matched"⟩ := by
  have h9 : iterAccount cmp pw now 9 a =
      { a with failedLoginAttempts := 9 } := by
    have := iterAccount_fail cmp pw now 9 a he hp hc hl (by rw [hf]; decide)
    rw [this, hf]
  have hfind : findOne [({ a with failedLoginAttempts := 9 } : Account)]
      (some a.email) = some { a with failedLoginAttempts := 9 } := by
    simp [findOne, List.find?]
  have hnl : isLocked ({ a with failedLoginAttempts := 9 } : Account) now = false := by
    unfold isLocked
    rw [show ({ a with failedLoginAttempts := 9 } : Account).lockUntil = none from hl]
  have hsr : staleLockReset now ({ a with failedLoginAttempts := 9 } : Account) =
      { a with failedLoginAttempts := 9 } :=
    staleLockReset_none now _ hl
  have hlock : isLocked ({ a with
      failedLoginAttempts := 10,
      lockUntil := some (now + LOCK_TIME) } : Account) now = true := by
    unfold isLocked
    simp [LOCK_TIME]
  constructor
  · rw [h9]
    unfold attemptOutcome login
    rw [hfind]
    simp [he, hp, hnl, hsr, hc, hlock, MAX_LOGIN_ATTEMPTS]
  · rw [h9]
    unfold attemptOutcome login
    rw [hfind]
    simp [clientResponse, he, hp, hnl, hsr, hc, hlock, MAX_LOGIN_ATTEMPTS]

/-- C1 counterexample: run the exact scenario — 10 consecutive wrong-password
attempts against one account starting from a clean state.  On the 10th
attempt the client response is the 401 mismatch message (the handler's later
attempt to send 423 cannot be delivered, the response being already
committed), and `bcrypt.compareSync` WAS invoked on the 10th password — both
halves of the claim fail. -/
theorem c1_tenth_attempt_counterexample :
    clientResponse (attemptOutcome (fun p h => p == h)
        (iterAccount (fun p h => p == h) "wrong" 1000 9
          ⟨"id1", "user@x.com", "correcthash", "L", 0, none⟩) "wrong" 1000) =
      some ⟨401, .msg "Please try again, the email and password did not matched"⟩ ∧
    (401 : Nat) ≠ 423 ∧
    (attemptOutcome (fun p h => p == h)
        (iterAccount (fun p h => p == h) "wrong" 1000 9
          ⟨"id1", "user@x.com", "correcthash", "L", 0, none⟩) "wrong" 1000).compared =
      some ("wrong", "correcthash") ∧
    some ("wrong", "correcthash") ≠ (none : Option (String × String)) := by
  refine ⟨by decide, by decide, by decide, by decide⟩

theorem c1_tenth_attempt_amended_witness :
    ("user@x.com" : String) ≠ "" ∧
    (fun (p h : String) => p == h) "wrong" "correcthash" = false ∧
    clientResponse (attemptOutcome (fun p h => p == h)
        (iterAccount (fun p h => p == h) "wrong" 1000 9
          ⟨"id1", "user@x.com", "correcthash", "L", 0, none⟩) "wrong" 1000) =
      some ⟨401, .msg "Please try again, the email and password did not matched"⟩ :=
  ⟨by decide, by decide,
   (c1_tenth_attempt_amended (fun p h => p == h) "wrong" 1000
      ⟨"id1", "user@x.com", "correcthash", "L", 0, none⟩
      (by decide) (by decide) (by decide) (by decide) (by decide)).2⟩
